import Mathlib

/-!
# client/build.go: the per-build gateway client and `Client.Build`

A shallow embedding of `src/client/build.go`.

* Go's `(resp, err)` return pair is a pair of options (`nil` is `none`).
* A request argument is a pointer in Go, so it is an `Option` here.
* The backend (`gatewayapi.LLBBridgeClient`, an interface) is a record of
  fourteen functions.  Every call the bridge makes on it is appended to a log
  of calls, which is threaded through every bridge method; the backend sees the
  log of earlier calls, so its replies may depend on the history.
* `buildid.AppendToOutgoingContext`, `apicaps.CapSet.Supports`,
  `Client.ListWorkers`, `Client.solve`, `grpcclient.New`, `BuildOpts`, `Run`
  and `apicaps.ExportedProduct` are declared outside `build.go`; they are
  taken as parameters, so every theorem holds for each of their behaviours.
-/

namespace Buildkit

/-! ## Values shared by the whole file -/

/-- A Go `error` value, observed through its `Error()` message. -/
structure GoError where
  msg : String
  deriving DecidableEq, Repr

/-- A `context.Context`, observed through the key/value pairs it carries. -/
structure Context where
  values : List (String × String)
  deriving DecidableEq, Repr

/-- A `grpc.CallOption`; only its identity matters here. -/
structure CallOption where
  id : Nat
  deriving DecidableEq, Repr

/-- The pair `(resp, err)` a Go function returns. -/
abbrev Reply (α : Type) := Option α × Option GoError

/-- The type of `buildid.AppendToOutgoingContext`, which derives from a context
and a build identifier the context the outgoing call is issued on. -/
abbrev Tagger := Context → String → Context

/-- The capability identifiers `build.go` asks about: the constants
`gatewayapi.CapReadDir`, `CapStatFile`, `CapGatewayEvaluate`,
`CapFrontendInputs` and `CapGatewayExec`, of type `apicaps.CapID`. -/
inductive apicaps.CapID where
  | CapReadDir
  | CapStatFile
  | CapGatewayEvaluate
  | CapFrontendInputs
  | CapGatewayExec
  deriving DecidableEq, Repr

/-- An `apicaps.CapSet`, seen through its one query: `Supports id` is `nil`
(`none`) when the capability is supported and an error otherwise. -/
structure apicaps.CapSet where
  Supports : apicaps.CapID → Option GoError

/-- The function `errors.Wrap` of `github.com/pkg/errors`: nil for a nil
error, otherwise an error whose message is the given message, a colon and a
blank, and the message of the wrapped error. -/
def errors.Wrap (err : Option GoError) (message : String) : Option GoError :=
  match err with
  | none => none
  | some e => some { msg := message ++ ": " ++ e.msg }

/-! ## Messages of the gateway API

Only `EvaluateRequest.Ref` and the two fields of `StatFileRequest` are read or
written by `build.go`; every other message is passed through untouched and is
represented by its payload. -/

namespace gatewayapi

structure ResolveImageConfigRequest where
  raw : String
  deriving DecidableEq, Repr

structure ResolveImageConfigResponse where
  raw : String
  deriving DecidableEq, Repr

structure ResolveSourceMetaRequest where
  raw : String
  deriving DecidableEq, Repr

structure ResolveSourceMetaResponse where
  raw : String
  deriving DecidableEq, Repr

structure SolveRequest where
  raw : String
  deriving DecidableEq, Repr

structure SolveResponse where
  raw : String
  deriving DecidableEq, Repr

structure ReadFileRequest where
  raw : String
  deriving DecidableEq, Repr

structure ReadFileResponse where
  raw : String
  deriving DecidableEq, Repr

structure ReadDirRequest where
  raw : String
  deriving DecidableEq, Repr

structure ReadDirResponse where
  raw : String
  deriving DecidableEq, Repr

structure StatFileRequest where
  Ref : String
  Path : String
  deriving DecidableEq, Repr

structure StatFileResponse where
  raw : String
  deriving DecidableEq, Repr

structure EvaluateRequest where
  Ref : String
  deriving DecidableEq, Repr

/-- The response of evaluate; the structure instance with no field given is the
empty literal `&gatewayapi.EvaluateResponse{}`. -/
structure EvaluateResponse where
  raw : String := ""
  deriving DecidableEq, Repr

structure PingRequest where
  raw : String
  deriving DecidableEq, Repr

structure PongResponse where
  raw : String
  deriving DecidableEq, Repr

structure ReturnRequest where
  raw : String
  deriving DecidableEq, Repr

structure ReturnResponse where
  raw : String
  deriving DecidableEq, Repr

structure InputsRequest where
  raw : String
  deriving DecidableEq, Repr

structure InputsResponse where
  raw : String
  deriving DecidableEq, Repr

structure NewContainerRequest where
  raw : String
  deriving DecidableEq, Repr

structure NewContainerResponse where
  raw : String
  deriving DecidableEq, Repr

structure ReleaseContainerRequest where
  raw : String
  deriving DecidableEq, Repr

structure ReleaseContainerResponse where
  raw : String
  deriving DecidableEq, Repr

/-- The stream handle returned by `ExecProcess`. -/
structure LLBBridge_ExecProcessClient where
  raw : String
  deriving DecidableEq, Repr

structure WarnRequest where
  raw : String
  deriving DecidableEq, Repr

structure WarnResponse where
  raw : String
  deriving DecidableEq, Repr

/-! ## The backend and the log of calls made on it -/

/-- One call made on the backend: the method, the context it was issued on,
the request pointer and the call options it received. -/
inductive Call where
  | ResolveImageConfig (ctx : Context) (req : Option ResolveImageConfigRequest)
      (opts : List CallOption)
  | ResolveSourceMeta (ctx : Context) (req : Option ResolveSourceMetaRequest)
      (opts : List CallOption)
  | Solve (ctx : Context) (req : Option SolveRequest)
      (opts : List CallOption)
  | ReadFile (ctx : Context) (req : Option ReadFileRequest)
      (opts : List CallOption)
  | ReadDir (ctx : Context) (req : Option ReadDirRequest)
      (opts : List CallOption)
  | StatFile (ctx : Context) (req : Option StatFileRequest)
      (opts : List CallOption)
  | Evaluate (ctx : Context) (req : Option EvaluateRequest)
      (opts : List CallOption)
  | Ping (ctx : Context) (req : Option PingRequest)
      (opts : List CallOption)
  | Return (ctx : Context) (req : Option ReturnRequest)
      (opts : List CallOption)
  | Inputs (ctx : Context) (req : Option InputsRequest)
      (opts : List CallOption)
  | NewContainer (ctx : Context) (req : Option NewContainerRequest)
      (opts : List CallOption)
  | ReleaseContainer (ctx : Context) (req : Option ReleaseContainerRequest)
      (opts : List CallOption)
  | ExecProcess (ctx : Context) (opts : List CallOption)
  | Warn (ctx : Context) (req : Option WarnRequest)
      (opts : List CallOption)
  deriving DecidableEq, Repr

/-- The context a logged call was issued on. -/
def Call.ctx : Call → Context
  | .ResolveImageConfig c _ _ => c
  | .ResolveSourceMeta c _ _ => c
  | .Solve c _ _ => c
  | .ReadFile c _ _ => c
  | .ReadDir c _ _ => c
  | .StatFile c _ _ => c
  | .Evaluate c _ _ => c
  | .Ping c _ _ => c
  | .Return c _ _ => c
  | .Inputs c _ _ => c
  | .NewContainer c _ _ => c
  | .ReleaseContainer c _ _ => c
  | .ExecProcess c _ => c
  | .Warn c _ _ => c

/-- The call options a logged call received. -/
def Call.opts : Call → List CallOption
  | .ResolveImageConfig _ _ o => o
  | .ResolveSourceMeta _ _ o => o
  | .Solve _ _ o => o
  | .ReadFile _ _ o => o
  | .ReadDir _ _ o => o
  | .StatFile _ _ o => o
  | .Evaluate _ _ o => o
  | .Ping _ _ o => o
  | .Return _ _ o => o
  | .Inputs _ _ o => o
  | .NewContainer _ _ o => o
  | .ReleaseContainer _ _ o => o
  | .ExecProcess _ o => o
  | .Warn _ _ o => o

/-- The interface `gatewayapi.LLBBridgeClient`.  The first argument of each
method is the log of the calls made before this one. -/
structure LLBBridgeClient where
  ResolveImageConfig : List Call → Context → Option ResolveImageConfigRequest →
    List CallOption → Reply ResolveImageConfigResponse
  ResolveSourceMeta : List Call → Context → Option ResolveSourceMetaRequest →
    List CallOption → Reply ResolveSourceMetaResponse
  Solve : List Call → Context → Option SolveRequest →
    List CallOption → Reply SolveResponse
  ReadFile : List Call → Context → Option ReadFileRequest →
    List CallOption → Reply ReadFileResponse
  ReadDir : List Call → Context → Option ReadDirRequest →
    List CallOption → Reply ReadDirResponse
  StatFile : List Call → Context → Option StatFileRequest →
    List CallOption → Reply StatFileResponse
  Evaluate : List Call → Context → Option EvaluateRequest →
    List CallOption → Reply EvaluateResponse
  Ping : List Call → Context → Option PingRequest →
    List CallOption → Reply PongResponse
  Return : List Call → Context → Option ReturnRequest →
    List CallOption → Reply ReturnResponse
  Inputs : List Call → Context → Option InputsRequest →
    List CallOption → Reply InputsResponse
  NewContainer : List Call → Context → Option NewContainerRequest →
    List CallOption → Reply NewContainerResponse
  ReleaseContainer : List Call → Context → Option ReleaseContainerRequest →
    List CallOption → Reply ReleaseContainerResponse
  ExecProcess : List Call → Context → List CallOption → Reply LLBBridge_ExecProcessClient
  Warn : List Call → Context → Option WarnRequest →
    List CallOption → Reply WarnResponse

end gatewayapi

/-- How a bridge method ends: it returns the pair `(resp, err)`, or it panics on
a nil pointer dereference. -/
inductive Ret (α : Type) where
  | returned (resp : Option α) (err : Option GoError)
  | panicked
  deriving DecidableEq, Repr

/-- The struct `gatewayClientForBuild`. -/
structure gatewayClientForBuild where
  gateway : gatewayapi.LLBBridgeClient
  buildID : String
  caps : Option apicaps.CapSet

/-! ## The methods of `gatewayClientForBuild` (build.go, lines 86 to 194) -/

/-- The method `ResolveImageConfig`: tag the context, forward. -/
def gatewayClientForBuild.ResolveImageConfig (AppendToOutgoingContext : Tagger)
    (g : gatewayClientForBuild) (ctx : Context) (req : Option gatewayapi.ResolveImageConfigRequest)
    (opts : List CallOption) (log : List gatewayapi.Call) :
    Ret gatewayapi.ResolveImageConfigResponse × List gatewayapi.Call :=
  let ctx := AppendToOutgoingContext ctx g.buildID
  let r := g.gateway.ResolveImageConfig log ctx req opts
  (Ret.returned r.1 r.2, log ++ [gatewayapi.Call.ResolveImageConfig ctx req opts])

/-- The method `ResolveSourceMeta`: tag the context, forward. -/
def gatewayClientForBuild.ResolveSourceMeta (AppendToOutgoingContext : Tagger)
    (g : gatewayClientForBuild) (ctx : Context) (req : Option gatewayapi.ResolveSourceMetaRequest)
    (opts : List CallOption) (log : List gatewayapi.Call) :
    Ret gatewayapi.ResolveSourceMetaResponse × List gatewayapi.Call :=
  let ctx := AppendToOutgoingContext ctx g.buildID
  let r := g.gateway.ResolveSourceMeta log ctx req opts
  (Ret.returned r.1 r.2, log ++ [gatewayapi.Call.ResolveSourceMeta ctx req opts])

/-- The method `Solve`: tag the context, forward. -/
def gatewayClientForBuild.Solve (AppendToOutgoingContext : Tagger)
    (g : gatewayClientForBuild) (ctx : Context) (req : Option gatewayapi.SolveRequest)
    (opts : List CallOption) (log : List gatewayapi.Call) :
    Ret gatewayapi.SolveResponse × List gatewayapi.Call :=
  let ctx := AppendToOutgoingContext ctx g.buildID
  let r := g.gateway.Solve log ctx req opts
  (Ret.returned r.1 r.2, log ++ [gatewayapi.Call.Solve ctx req opts])

/-- The method `ReadFile`: tag the context, forward. -/
def gatewayClientForBuild.ReadFile (AppendToOutgoingContext : Tagger)
    (g : gatewayClientForBuild) (ctx : Context) (req : Option gatewayapi.ReadFileRequest)
    (opts : List CallOption) (log : List gatewayapi.Call) :
    Ret gatewayapi.ReadFileResponse × List gatewayapi.Call :=
  let ctx := AppendToOutgoingContext ctx g.buildID
  let r := g.gateway.ReadFile log ctx req opts
  (Ret.returned r.1 r.2, log ++ [gatewayapi.Call.ReadFile ctx req opts])

/-- The method `ReadDir`: when a capability set is attached and it does not
support `CapReadDir`, return its error; otherwise tag the context and forward. -/
def gatewayClientForBuild.ReadDir (AppendToOutgoingContext : Tagger)
    (g : gatewayClientForBuild) (ctx : Context) (req : Option gatewayapi.ReadDirRequest)
    (opts : List CallOption) (log : List gatewayapi.Call) :
    Ret gatewayapi.ReadDirResponse × List gatewayapi.Call :=
  let forward : Ret gatewayapi.ReadDirResponse × List gatewayapi.Call :=
    let ctx := AppendToOutgoingContext ctx g.buildID
    let r := g.gateway.ReadDir log ctx req opts
    (Ret.returned r.1 r.2, log ++ [gatewayapi.Call.ReadDir ctx req opts])
  match g.caps with
  | none => forward
  | some caps =>
    match caps.Supports apicaps.CapID.CapReadDir with
    | some err => (Ret.returned none (some err), log)
    | none => forward

/-- The method `StatFile`: when a capability set is attached and it does not
support `CapStatFile`, return its error; otherwise tag the context and forward. -/
def gatewayClientForBuild.StatFile (AppendToOutgoingContext : Tagger)
    (g : gatewayClientForBuild) (ctx : Context) (req : Option gatewayapi.StatFileRequest)
    (opts : List CallOption) (log : List gatewayapi.Call) :
    Ret gatewayapi.StatFileResponse × List gatewayapi.Call :=
  let forward : Ret gatewayapi.StatFileResponse × List gatewayapi.Call :=
    let ctx := AppendToOutgoingContext ctx g.buildID
    let r := g.gateway.StatFile log ctx req opts
    (Ret.returned r.1 r.2, log ++ [gatewayapi.Call.StatFile ctx req opts])
  match g.caps with
  | none => forward
  | some caps =>
    match caps.Supports apicaps.CapID.CapStatFile with
    | some err => (Ret.returned none (some err), log)
    | none => forward

/-- The method `Evaluate`.  With a capability set attached that does not
support `CapGatewayEvaluate`: if it does not support `CapStatFile` either, the
first error is returned; otherwise a stat-file call on path "." of the same
reference is forwarded, its response is dropped and its error is returned next
to an empty evaluate response.  Reading `in.Ref` panics when `in` is nil.  In
every other case the evaluate call is tagged and forwarded. -/
def gatewayClientForBuild.Evaluate (AppendToOutgoingContext : Tagger)
    (g : gatewayClientForBuild) (ctx : Context) (req : Option gatewayapi.EvaluateRequest)
    (opts : List CallOption) (log : List gatewayapi.Call) :
    Ret gatewayapi.EvaluateResponse × List gatewayapi.Call :=
  let forward : Ret gatewayapi.EvaluateResponse × List gatewayapi.Call :=
    let ctx := AppendToOutgoingContext ctx g.buildID
    let r := g.gateway.Evaluate log ctx req opts
    (Ret.returned r.1 r.2, log ++ [gatewayapi.Call.Evaluate ctx req opts])
  match g.caps with
  | none => forward
  | some caps =>
    match caps.Supports apicaps.CapID.CapGatewayEvaluate with
    | some err =>
      match caps.Supports apicaps.CapID.CapStatFile with
      | some _ => (Ret.returned none (some err), log)
      | none =>
        let ctx := AppendToOutgoingContext ctx g.buildID
        match req with
        | none => (Ret.panicked, log)
        | some r =>
          let stat : gatewayapi.StatFileRequest := { Ref := r.Ref, Path := "." }
          let res := g.gateway.StatFile log ctx (some stat) opts
          (Ret.returned (some {}) res.2, log ++ [gatewayapi.Call.StatFile ctx (some stat) opts])
    | none => forward

/-- The method `Ping`: tag the context, forward. -/
def gatewayClientForBuild.Ping (AppendToOutgoingContext : Tagger)
    (g : gatewayClientForBuild) (ctx : Context) (req : Option gatewayapi.PingRequest)
    (opts : List CallOption) (log : List gatewayapi.Call) :
    Ret gatewayapi.PongResponse × List gatewayapi.Call :=
  let ctx := AppendToOutgoingContext ctx g.buildID
  let r := g.gateway.Ping log ctx req opts
  (Ret.returned r.1 r.2, log ++ [gatewayapi.Call.Ping ctx req opts])

/-- The method `Return`: tag the context, forward. -/
def gatewayClientForBuild.Return (AppendToOutgoingContext : Tagger)
    (g : gatewayClientForBuild) (ctx : Context) (req : Option gatewayapi.ReturnRequest)
    (opts : List CallOption) (log : List gatewayapi.Call) :
    Ret gatewayapi.ReturnResponse × List gatewayapi.Call :=
  let ctx := AppendToOutgoingContext ctx g.buildID
  let r := g.gateway.Return log ctx req opts
  (Ret.returned r.1 r.2, log ++ [gatewayapi.Call.Return ctx req opts])

/-- The method `Inputs`: when a capability set is attached and it does not
support `CapFrontendInputs`, return its error; otherwise tag the context and forward. -/
def gatewayClientForBuild.Inputs (AppendToOutgoingContext : Tagger)
    (g : gatewayClientForBuild) (ctx : Context) (req : Option gatewayapi.InputsRequest)
    (opts : List CallOption) (log : List gatewayapi.Call) :
    Ret gatewayapi.InputsResponse × List gatewayapi.Call :=
  let forward : Ret gatewayapi.InputsResponse × List gatewayapi.Call :=
    let ctx := AppendToOutgoingContext ctx g.buildID
    let r := g.gateway.Inputs log ctx req opts
    (Ret.returned r.1 r.2, log ++ [gatewayapi.Call.Inputs ctx req opts])
  match g.caps with
  | none => forward
  | some caps =>
    match caps.Supports apicaps.CapID.CapFrontendInputs with
    | some err => (Ret.returned none (some err), log)
    | none => forward

/-- The method `NewContainer`: when a capability set is attached and it does not
support `CapGatewayExec`, return its error; otherwise tag the context and forward. -/
def gatewayClientForBuild.NewContainer (AppendToOutgoingContext : Tagger)
    (g : gatewayClientForBuild) (ctx : Context) (req : Option gatewayapi.NewContainerRequest)
    (opts : List CallOption) (log : List gatewayapi.Call) :
    Ret gatewayapi.NewContainerResponse × List gatewayapi.Call :=
  let forward : Ret gatewayapi.NewContainerResponse × List gatewayapi.Call :=
    let ctx := AppendToOutgoingContext ctx g.buildID
    let r := g.gateway.NewContainer log ctx req opts
    (Ret.returned r.1 r.2, log ++ [gatewayapi.Call.NewContainer ctx req opts])
  match g.caps with
  | none => forward
  | some caps =>
    match caps.Supports apicaps.CapID.CapGatewayExec with
    | some err => (Ret.returned none (some err), log)
    | none => forward

/-- The method `ReleaseContainer`: when a capability set is attached and it does not
support `CapGatewayExec`, return its error; otherwise tag the context and forward. -/
def gatewayClientForBuild.ReleaseContainer (AppendToOutgoingContext : Tagger)
    (g : gatewayClientForBuild) (ctx : Context) (req : Option gatewayapi.ReleaseContainerRequest)
    (opts : List CallOption) (log : List gatewayapi.Call) :
    Ret gatewayapi.ReleaseContainerResponse × List gatewayapi.Call :=
  let forward : Ret gatewayapi.ReleaseContainerResponse × List gatewayapi.Call :=
    let ctx := AppendToOutgoingContext ctx g.buildID
    let r := g.gateway.ReleaseContainer log ctx req opts
    (Ret.returned r.1 r.2, log ++ [gatewayapi.Call.ReleaseContainer ctx req opts])
  match g.caps with
  | none => forward
  | some caps =>
    match caps.Supports apicaps.CapID.CapGatewayExec with
    | some err => (Ret.returned none (some err), log)
    | none => forward

/-- The method `ExecProcess`: gated on `CapGatewayExec`; it takes no request. -/
def gatewayClientForBuild.ExecProcess (AppendToOutgoingContext : Tagger)
    (g : gatewayClientForBuild) (ctx : Context)
    (opts : List CallOption) (log : List gatewayapi.Call) :
    Ret gatewayapi.LLBBridge_ExecProcessClient × List gatewayapi.Call :=
  let forward : Ret gatewayapi.LLBBridge_ExecProcessClient × List gatewayapi.Call :=
    let ctx := AppendToOutgoingContext ctx g.buildID
    let r := g.gateway.ExecProcess log ctx opts
    (Ret.returned r.1 r.2, log ++ [gatewayapi.Call.ExecProcess ctx opts])
  match g.caps with
  | none => forward
  | some caps =>
    match caps.Supports apicaps.CapID.CapGatewayExec with
    | some err => (Ret.returned none (some err), log)
    | none => forward

/-- The method `Warn`: tag the context, forward the request; the backend
method is called with no call options (`g.gateway.Warn(ctx, in)`). -/
def gatewayClientForBuild.Warn (AppendToOutgoingContext : Tagger)
    (g : gatewayClientForBuild) (ctx : Context) (req : Option gatewayapi.WarnRequest)
    (_opts : List CallOption) (log : List gatewayapi.Call) :
    Ret gatewayapi.WarnResponse × List gatewayapi.Call :=
  let ctx := AppendToOutgoingContext ctx g.buildID
  let r := g.gateway.Warn log ctx req []
  (Ret.returned r.1 r.2, log ++ [gatewayapi.Call.Warn ctx req []])

/-! ## `Client.Build` (build.go, lines 17 to 78) -/

/-- A non-nil Go `map[string]string`: an association list with distinct keys. -/
abbrev StringMap := AList (fun _ : String => String)

/-- A Go `map[string]string` value; `none` is the nil map. -/
abbrev GoMap := Option StringMap

/-- The function `maps.Copy` of the standard library: every key/value pair of
`src` is written to `dst` (`dst[k] = v`); a nil `src` has no pairs. -/
def maps.Copy (dst : StringMap) (src : GoMap) : StringMap :=
  match src with
  | none => dst
  | some m => m.entries.foldl (fun d e => d.insert e.1 e.2) dst

/-- The struct `WorkerInfo` of the client package; `rest` stands for the
fields `build.go` does not read. -/
structure WorkerInfo where
  ID : String
  Labels : GoMap
  Platforms : List String
  rest : String
  deriving DecidableEq

/-- The struct `gateway.WorkerInfo`. -/
structure gateway.WorkerInfo where
  ID : String
  Labels : GoMap
  Platforms : List String
  deriving DecidableEq

/-- A `gateway.BuildFunc` value, the build routine supplied by the caller; it
is only handed on to `Run`. -/
structure gateway.BuildFunc where
  id : Nat
  deriving DecidableEq, Repr

/-- The struct `SolveOpt`; `rest` stands for the fields `build.go` does not
touch. -/
structure SolveOpt where
  Frontend : String
  FrontendAttrs : GoMap
  rest : String
  deriving DecidableEq

/-- The struct `SolveResponse` of the client package. -/
structure SolveResponse where
  raw : String
  deriving DecidableEq, Repr

/-- A `session.Session`; `ID` is what its method `ID()` returns. -/
structure session.Session where
  ID : String
  deriving DecidableEq, Repr

/-- A non-nil `chan *SolveStatus`. -/
structure StatusChan where
  id : Nat
  deriving DecidableEq, Repr

/-- The client `grpcclient.New` returns; `BuildOptsCaps` is what
`g.BuildOpts().Caps` evaluates to. -/
structure grpcclient.GrpcClient where
  BuildOptsCaps : apicaps.CapSet
  id : Nat

/-- The struct `Client`; `conn` is seen through the gateway client
`gatewayapi.NewLLBBridgeClient(c.conn)` built on it. -/
structure Client where
  conn : gatewayapi.LLBBridgeClient

/-- The arguments of one call of `grpcclient.New`. -/
structure NewArgs where
  ctx : Context
  opts : StringMap
  sessionID : String
  product : String
  client : gatewayClientForBuild
  workers : List gateway.WorkerInfo

/-- The state one run of `Build` works on. -/
structure World where
  /-- the variable `feOpts` of `Build`, shared with the callback `cb` -/
  feOpts : GoMap
  /-- how many times `close(statusChan)` has been executed -/
  closes : Nat
  /-- the arguments of the calls of `grpcclient.New` made so far, in order -/
  news : List NewArgs

/-- The functions and constants `Build` uses that are declared outside
`build.go`.  `ListWorkers`, `New` and `Run` read the state and return their
result; `solve` receives the callback and may run it, any number of times. -/
structure Collaborators where
  ExportedProduct : String
  ListWorkers : World → Context → List WorkerInfo × Option GoError
  solve : (String → session.Session → GoMap → World → Option GoError × World) →
    Context → SolveOpt → Option StatusChan → World → Reply SolveResponse × World
  New : World → Context → StringMap → String → String → gatewayClientForBuild →
    List gateway.WorkerInfo → Except GoError grpcclient.GrpcClient
  Run : World → grpcclient.GrpcClient → gatewayClientForBuild → Context →
    gateway.BuildFunc → Option GoError

/-- The method `Client.gatewayClientForBuild`: a bridge on the shared
connection with the given build identifier and no capability set. -/
def Client.gatewayClientForBuild (c : Client) (buildid : String) :
    Buildkit.gatewayClientForBuild :=
  { gateway := c.conn, buildID := buildid, caps := none }

/-- The method `Client.GatewayClientForBuild`. -/
def Client.GatewayClientForBuild (c : Client) (buildid : String) :
    Buildkit.gatewayClientForBuild :=
  c.gatewayClientForBuild buildid

/-- The closure `cb` of `Build` (lines 45 to 63); its captured variables `c`,
`ctx`, `product`, `buildFunc` and `gworkers` are arguments, and the captured
variable `feOpts`, which it assigns, is in the state. -/
def Client.Build.cb (d : Collaborators) (c : Client) (ctx : Context) (product : String)
    (buildFunc : gateway.BuildFunc) (gworkers : List gateway.WorkerInfo)
    (ref : String) (s : session.Session) (opts : GoMap) (w : World) :
    Option GoError × World :=
  let feOpts : StringMap :=
    match w.feOpts with
    | none => ∅
    | some m => m
  let feOpts := maps.Copy feOpts opts
  let w := { w with feOpts := some feOpts }
  let gwClient := c.gatewayClientForBuild ref
  let w := { w with news := w.news ++
    [{ ctx := ctx, opts := feOpts, sessionID := s.ID, product := product,
       client := gwClient, workers := gworkers }] }
  match d.New w ctx feOpts s.ID product gwClient gworkers with
  | .error err => (some err, w)
  | .ok g =>
    let caps := g.BuildOptsCaps
    let gwClient := { gwClient with caps := some caps }
    match d.Run w g gwClient ctx buildFunc with
    | some err => (errors.Wrap (some err) "failed to run Build function", w)
    | none => (none, w)

/-- The method `Client.Build`.  The deferred function runs last on both return
paths: it closes `statusChan` when that is not nil. -/
def Client.Build (d : Collaborators) (c : Client) (ctx : Context) (opt : SolveOpt)
    (product : String) (buildFunc : gateway.BuildFunc) (statusChan : Option StatusChan)
    (w : World) : Reply SolveResponse × World :=
  let deferred (w : World) : World :=
    match statusChan with
    | some _ => { w with closes := w.closes + 1 }
    | none => w
  let w := { w with feOpts := opt.FrontendAttrs }
  let opt := { opt with Frontend := "" }
  let product := if product = "" then d.ExportedProduct else product
  let workers := d.ListWorkers w ctx
  match workers.2 with
  | some err => ((none, errors.Wrap (some err) "listing workers for Build"), deferred w)
  | none =>
    let gworkers : List gateway.WorkerInfo :=
      workers.1.map (fun w => { ID := w.ID, Labels := w.Labels, Platforms := w.Platforms })
    let r := d.solve (Client.Build.cb d c ctx product buildFunc gworkers) ctx opt statusChan w
    (r.1, deferred r.2)

/-- The test `strings.Contains(e.Error(), s)`: `s` occurs in the message of
`e` as a run of consecutive characters. -/
def GoError.Contains (e : GoError) (s : String) : Prop :=
  s.data <:+: e.msg.data

/-- The attribute map `cb` passes to `grpcclient.New`: the value of `feOpts`
after lines 46 to 49. -/
def Client.Build.cb.attrs (w : World) (opts : GoMap) : StringMap :=
  maps.Copy (match w.feOpts with | none => ∅ | some m => m) opts

/-- The state in which `cb` calls `grpcclient.New` and `Run`: `feOpts` holds
the merged attributes and the call of `New` is recorded. -/
def Client.Build.cb.world (c : Client) (ctx : Context) (product : String)
    (gworkers : List gateway.WorkerInfo) (ref : String) (s : session.Session)
    (opts : GoMap) (w : World) : World :=
  let feOpts : StringMap := Client.Build.cb.attrs w opts
  { feOpts := some feOpts
    closes := w.closes
    news := w.news ++
      [{ ctx := ctx, opts := feOpts, sessionID := s.ID, product := product,
         client := c.gatewayClientForBuild ref, workers := gworkers }] }

/-- The calls in `after` that are not in `before` were all issued on the
context `tagged`: `after` is `before` followed by calls whose context is
`tagged`. -/
def ForwardedOn (before after : List gatewayapi.Call) (tagged : Context) : Prop :=
  ∃ new : List gatewayapi.Call, after = before ++ new ∧ ∀ call ∈ new, call.ctx = tagged

/-! ## Sample values, used to instantiate the theorems -/

/-- A tagger that appends the pair of the key "buildid" and the identifier. -/
def sampleTagger : Tagger :=
  fun ctx id => { values := ctx.values ++ [("buildid", id)] }

/-- A backend that answers every call with a fixed response and no error,
except stat-file, which fails on the reference "missing". -/
def sampleBackend : gatewayapi.LLBBridgeClient where
  ResolveImageConfig := fun _ _ _ _ => (some { raw := "config" }, none)
  ResolveSourceMeta := fun _ _ _ _ => (some { raw := "meta" }, none)
  Solve := fun _ _ _ _ => (some { raw := "solved" }, none)
  ReadFile := fun _ _ _ _ => (some { raw := "file" }, none)
  ReadDir := fun _ _ _ _ => (some { raw := "dir" }, none)
  StatFile := fun _ _ req _ =>
    match req with
    | some r => if r.Ref = "missing" then (none, some { msg := "not found" })
                else (some { raw := "stat" }, none)
    | none => (none, some { msg := "no request" })
  Evaluate := fun _ _ _ _ => (some { raw := "evaluated" }, none)
  Ping := fun _ _ _ _ => (some { raw := "pong" }, none)
  Return := fun _ _ _ _ => (some { raw := "returned" }, none)
  Inputs := fun _ _ _ _ => (some { raw := "inputs" }, none)
  NewContainer := fun _ _ _ _ => (some { raw := "container" }, none)
  ReleaseContainer := fun _ _ _ _ => (some { raw := "released" }, none)
  ExecProcess := fun _ _ _ => (some { raw := "stream" }, none)
  Warn := fun _ _ _ _ => (some { raw := "warned" }, none)

/-- The error a sample capability set gives for an unsupported capability. -/
def unsupported : apicaps.CapID → GoError
  | .CapReadDir => { msg := "requested capability readdir is not supported" }
  | .CapStatFile => { msg := "requested capability statfile is not supported" }
  | .CapGatewayEvaluate => { msg := "requested capability gateway.evaluate is not supported" }
  | .CapFrontendInputs => { msg := "requested capability frontend.inputs is not supported" }
  | .CapGatewayExec => { msg := "requested capability gateway.exec is not supported" }

/-- A capability set that supports nothing. -/
def capsNone : apicaps.CapSet where
  Supports := fun id => some (unsupported id)

/-- A capability set that supports everything. -/
def capsAll : apicaps.CapSet where
  Supports := fun _ => none

/-- A capability set that supports `CapStatFile` only. -/
def capsStatOnly : apicaps.CapSet where
  Supports := fun id => if id = apicaps.CapID.CapStatFile then none else some (unsupported id)

/-- Session options: target "prod" and session "s1". -/
def sampleSessionOpts : StringMap :=
  (AList.insert "target" "prod" (AList.insert "session" "s1" ∅))

/-- A state in which nothing has happened yet. -/
def sampleWorld : World :=
  { feOpts := none, closes := 0, news := [] }

/-- Collaborators for the samples: one worker is listed, unless the context
carries the key "offline"; `solve` runs the callback once and returns its
error; `New` succeeds; `Run` fails with "boom" unless the build routine is
number 0. -/
def sampleCollaborators : Collaborators where
  ExportedProduct := "buildkit"
  ListWorkers := fun _ ctx =>
    if ctx.values.any (fun kv => kv.1 == "offline") then ([], some { msg := "unavailable" })
    else ([{ ID := "w1", Labels := none, Platforms := ["linux/amd64"], rest := "" }], none)
  solve := fun cb _ _ _ w =>
    let r := cb "ref1" { ID := "sess1" } (some sampleSessionOpts) w
    ((if r.1.isSome then none else some { raw := "done" }, r.1), r.2)
  New := fun _ _ _ _ _ _ _ => .ok { BuildOptsCaps := capsStatOnly, id := 1 }
  Run := fun _ _ _ _ f => if f.id = 0 then none else some { msg := "boom" }

/-! ## Theorems -/

/-- Nothing forwarded: the log is unchanged. -/
theorem ForwardedOn.same (log : List gatewayapi.Call) (tagged : Context) :
    ForwardedOn log log tagged :=
  ⟨[], by simp, by simp⟩

/-- One call forwarded, on the tagged context. -/
theorem ForwardedOn.one (log : List gatewayapi.Call) (call : gatewayapi.Call)
    (tagged : Context) (h : call.ctx = tagged) :
    ForwardedOn log (log ++ [call]) tagged :=
  ⟨[call], rfl, by simpa using h⟩

/-- C1: with a capability set attached that does not support the capability of
a gated operation without fallback (ReadDir, StatFile, Inputs, NewContainer,
ReleaseContainer, ExecProcess), the operation returns no response and exactly
the error `Supports` gave, and the log of backend calls is unchanged: nothing
is forwarded. -/
theorem gated_unsupported_returns_error_and_forwards_nothing
    (tag : Tagger) (gw : gatewayapi.LLBBridgeClient) (id : String) (S : apicaps.CapSet)
    (ctx : Context) (opts : List CallOption) (log : List gatewayapi.Call) :
    (∀ req e, S.Supports apicaps.CapID.CapReadDir = some e →
      gatewayClientForBuild.ReadDir tag ⟨gw, id, some S⟩ ctx req opts log
        = (Ret.returned none (some e), log)) ∧
    (∀ req e, S.Supports apicaps.CapID.CapStatFile = some e →
      gatewayClientForBuild.StatFile tag ⟨gw, id, some S⟩ ctx req opts log
        = (Ret.returned none (some e), log)) ∧
    (∀ req e, S.Supports apicaps.CapID.CapFrontendInputs = some e →
      gatewayClientForBuild.Inputs tag ⟨gw, id, some S⟩ ctx req opts log
        = (Ret.returned none (some e), log)) ∧
    (∀ req e, S.Supports apicaps.CapID.CapGatewayExec = some e →
      gatewayClientForBuild.NewContainer tag ⟨gw, id, some S⟩ ctx req opts log
        = (Ret.returned none (some e), log)) ∧
    (∀ req e, S.Supports apicaps.CapID.CapGatewayExec = some e →
      gatewayClientForBuild.ReleaseContainer tag ⟨gw, id, some S⟩ ctx req opts log
        = (Ret.returned none (some e), log)) ∧
    (∀ e, S.Supports apicaps.CapID.CapGatewayExec = some e →
      gatewayClientForBuild.ExecProcess tag ⟨gw, id, some S⟩ ctx opts log
        = (Ret.returned none (some e), log)) := by
  refine ⟨?_, ?_, ?_, ?_, ?_, ?_⟩
  · intro req e h
    simp [gatewayClientForBuild.ReadDir, h]
  · intro req e h
    simp [gatewayClientForBuild.StatFile, h]
  · intro req e h
    simp [gatewayClientForBuild.Inputs, h]
  · intro req e h
    simp [gatewayClientForBuild.NewContainer, h]
  · intro req e h
    simp [gatewayClientForBuild.ReleaseContainer, h]
  · intro e h
    simp [gatewayClientForBuild.ExecProcess, h]

/-- Witness of C1: the six operations on a bridge whose capability set supports
nothing, called after one earlier backend call; the log stays as it was. -/
theorem gated_unsupported_returns_error_and_forwards_nothing_witness :
    gatewayClientForBuild.ReadDir sampleTagger ⟨sampleBackend, "b1", some capsNone⟩
        ⟨[]⟩ (some ⟨"/etc"⟩) [⟨7⟩] [gatewayapi.Call.Ping ⟨[]⟩ none []]
      = (Ret.returned none (some (unsupported apicaps.CapID.CapReadDir)),
          [gatewayapi.Call.Ping ⟨[]⟩ none []]) ∧
    gatewayClientForBuild.StatFile sampleTagger ⟨sampleBackend, "b1", some capsNone⟩
        ⟨[]⟩ (some ⟨"r1", "/etc"⟩) [⟨7⟩] [gatewayapi.Call.Ping ⟨[]⟩ none []]
      = (Ret.returned none (some (unsupported apicaps.CapID.CapStatFile)),
          [gatewayapi.Call.Ping ⟨[]⟩ none []]) ∧
    gatewayClientForBuild.Inputs sampleTagger ⟨sampleBackend, "b1", some capsNone⟩
        ⟨[]⟩ (some ⟨"in"⟩) [⟨7⟩] [gatewayapi.Call.Ping ⟨[]⟩ none []]
      = (Ret.returned none (some (unsupported apicaps.CapID.CapFrontendInputs)),
          [gatewayapi.Call.Ping ⟨[]⟩ none []]) ∧
    gatewayClientForBuild.NewContainer sampleTagger ⟨sampleBackend, "b1", some capsNone⟩
        ⟨[]⟩ (some ⟨"c1"⟩) [⟨7⟩] [gatewayapi.Call.Ping ⟨[]⟩ none []]
      = (Ret.returned none (some (unsupported apicaps.CapID.CapGatewayExec)),
          [gatewayapi.Call.Ping ⟨[]⟩ none []]) ∧
    gatewayClientForBuild.ReleaseContainer sampleTagger ⟨sampleBackend, "b1", some capsNone⟩
        ⟨[]⟩ (some ⟨"c1"⟩) [⟨7⟩] [gatewayapi.Call.Ping ⟨[]⟩ none []]
      = (Ret.returned none (some (unsupported apicaps.CapID.CapGatewayExec)),
          [gatewayapi.Call.Ping ⟨[]⟩ none []]) ∧
    gatewayClientForBuild.ExecProcess sampleTagger ⟨sampleBackend, "b1", some capsNone⟩
        ⟨[]⟩ [⟨7⟩] [gatewayapi.Call.Ping ⟨[]⟩ none []]
      = (Ret.returned none (some (unsupported apicaps.CapID.CapGatewayExec)),
          [gatewayapi.Call.Ping ⟨[]⟩ none []]) :=
  have h := gated_unsupported_returns_error_and_forwards_nothing sampleTagger sampleBackend
    "b1" capsNone ⟨[]⟩ [⟨7⟩] [gatewayapi.Call.Ping ⟨[]⟩ none []]
  ⟨h.1 _ _ rfl, h.2.1 _ _ rfl, h.2.2.1 _ _ rfl, h.2.2.2.1 _ _ rfl, h.2.2.2.2.1 _ _ rfl,
    h.2.2.2.2.2 _ rfl⟩

/-- C2: with a capability set that does not support `CapGatewayEvaluate` but
supports `CapStatFile`, `Evaluate` on a request with reference `r` forwards
exactly one backend call, the stat-file call with request `Ref: r, Path: "."`
on the tagged context (and so no evaluate call); it returns an empty evaluate
response together with the error of that stat call, hence no error when the
stat call succeeds, whatever response the stat call gave. -/
theorem Evaluate_unsupported_falls_back_to_StatFile
    (tag : Tagger) (gw : gatewayapi.LLBBridgeClient) (id : String) (S : apicaps.CapSet)
    (ctx : Context) (r : String) (opts : List CallOption) (log : List gatewayapi.Call)
    (e : GoError)
    (hEval : S.Supports apicaps.CapID.CapGatewayEvaluate = some e)
    (hStat : S.Supports apicaps.CapID.CapStatFile = none) :
    gatewayClientForBuild.Evaluate tag ⟨gw, id, some S⟩ ctx (some ⟨r⟩) opts log
      = (Ret.returned (some {}) (gw.StatFile log (tag ctx id) (some ⟨r, "."⟩) opts).2,
          log ++ [gatewayapi.Call.StatFile (tag ctx id) (some ⟨r, "."⟩) opts]) ∧
    ((gw.StatFile log (tag ctx id) (some ⟨r, "."⟩) opts).2 = none →
      (gatewayClientForBuild.Evaluate tag ⟨gw, id, some S⟩ ctx (some ⟨r⟩) opts log).1
        = Ret.returned (some {}) none) := by
  constructor
  · simp [gatewayClientForBuild.Evaluate, hEval, hStat]
  · intro h
    simp [gatewayClientForBuild.Evaluate, hEval, hStat, h]

/-- Witness of C2: the scenario of the specification, a capability set with
`CapStatFile` only and an evaluate request on the reference "r1". -/
theorem Evaluate_unsupported_falls_back_to_StatFile_witness :
    gatewayClientForBuild.Evaluate sampleTagger ⟨sampleBackend, "b1", some capsStatOnly⟩
        ⟨[]⟩ (some ⟨"r1"⟩) [⟨7⟩] []
      = (Ret.returned (some {}) none,
          [gatewayapi.Call.StatFile ⟨[("buildid", "b1")]⟩ (some ⟨"r1", "."⟩) [⟨7⟩]]) :=
  (Evaluate_unsupported_falls_back_to_StatFile sampleTagger sampleBackend "b1" capsStatOnly
    ⟨[]⟩ "r1" [⟨7⟩] [] (unsupported apicaps.CapID.CapGatewayEvaluate) rfl rfl).1

/-- C3: with a capability set that supports neither `CapGatewayEvaluate` nor
`CapStatFile`, `Evaluate` (on any request pointer, nil included) forwards
nothing, returns no response, and its error is the one the check of
`CapGatewayEvaluate` gave, whatever error the check of `CapStatFile` gave. -/
theorem Evaluate_without_fallback_returns_first_error
    (tag : Tagger) (gw : gatewayapi.LLBBridgeClient) (id : String) (S : apicaps.CapSet)
    (ctx : Context) (req : Option gatewayapi.EvaluateRequest) (opts : List CallOption)
    (log : List gatewayapi.Call) (e1 e2 : GoError)
    (hEval : S.Supports apicaps.CapID.CapGatewayEvaluate = some e1)
    (hStat : S.Supports apicaps.CapID.CapStatFile = some e2) :
    gatewayClientForBuild.Evaluate tag ⟨gw, id, some S⟩ ctx req opts log
      = (Ret.returned none (some e1), log) := by
  simp [gatewayClientForBuild.Evaluate, hEval, hStat]

/-- Witness of C3: a capability set that supports nothing; the two checks give
different errors and the one of `CapGatewayEvaluate` is returned. -/
theorem Evaluate_without_fallback_returns_first_error_witness :
    unsupported apicaps.CapID.CapGatewayEvaluate ≠ unsupported apicaps.CapID.CapStatFile ∧
    gatewayClientForBuild.Evaluate sampleTagger ⟨sampleBackend, "b1", some capsNone⟩
        ⟨[]⟩ (some ⟨"r1"⟩) [⟨7⟩] []
      = (Ret.returned none (some (unsupported apicaps.CapID.CapGatewayEvaluate)), []) :=
  ⟨by decide,
    Evaluate_without_fallback_returns_first_error sampleTagger sampleBackend "b1" capsNone
      ⟨[]⟩ (some ⟨"r1"⟩) [⟨7⟩] [] (unsupported apicaps.CapID.CapGatewayEvaluate)
      (unsupported apicaps.CapID.CapStatFile) rfl rfl⟩

/-- C4: with a capability set that supports the primary capability of a gated
operation (ReadDir, StatFile, Evaluate, Inputs, NewContainer, ReleaseContainer,
ExecProcess), the operation forwards exactly one backend call, the call of the
same operation with the request of the caller on the tagged context, and
returns the response and the error of the backend as they are.  For `Evaluate`
nothing is assumed about `CapStatFile`: the one call is the evaluate call. -/
theorem gated_supported_forwards_one_call
    (tag : Tagger) (gw : gatewayapi.LLBBridgeClient) (id : String) (S : apicaps.CapSet)
    (ctx : Context) (opts : List CallOption) (log : List gatewayapi.Call) :
    (∀ req, S.Supports apicaps.CapID.CapReadDir = none →
      gatewayClientForBuild.ReadDir tag ⟨gw, id, some S⟩ ctx req opts log
        = (Ret.returned (gw.ReadDir log (tag ctx id) req opts).1
            (gw.ReadDir log (tag ctx id) req opts).2,
            log ++ [gatewayapi.Call.ReadDir (tag ctx id) req opts])) ∧
    (∀ req, S.Supports apicaps.CapID.CapStatFile = none →
      gatewayClientForBuild.StatFile tag ⟨gw, id, some S⟩ ctx req opts log
        = (Ret.returned (gw.StatFile log (tag ctx id) req opts).1
            (gw.StatFile log (tag ctx id) req opts).2,
            log ++ [gatewayapi.Call.StatFile (tag ctx id) req opts])) ∧
    (∀ req, S.Supports apicaps.CapID.CapGatewayEvaluate = none →
      gatewayClientForBuild.Evaluate tag ⟨gw, id, some S⟩ ctx req opts log
        = (Ret.returned (gw.Evaluate log (tag ctx id) req opts).1
            (gw.Evaluate log (tag ctx id) req opts).2,
            log ++ [gatewayapi.Call.Evaluate (tag ctx id) req opts])) ∧
    (∀ req, S.Supports apicaps.CapID.CapFrontendInputs = none →
      gatewayClientForBuild.Inputs tag ⟨gw, id, some S⟩ ctx req opts log
        = (Ret.returned (gw.Inputs log (tag ctx id) req opts).1
            (gw.Inputs log (tag ctx id) req opts).2,
            log ++ [gatewayapi.Call.Inputs (tag ctx id) req opts])) ∧
    (∀ req, S.Supports apicaps.CapID.CapGatewayExec = none →
      gatewayClientForBuild.NewContainer tag ⟨gw, id, some S⟩ ctx req opts log
        = (Ret.returned (gw.NewContainer log (tag ctx id) req opts).1
            (gw.NewContainer log (tag ctx id) req opts).2,
            log ++ [gatewayapi.Call.NewContainer (tag ctx id) req opts])) ∧
    (∀ req, S.Supports apicaps.CapID.CapGatewayExec = none →
      gatewayClientForBuild.ReleaseContainer tag ⟨gw, id, some S⟩ ctx req opts log
        = (Ret.returned (gw.ReleaseContainer log (tag ctx id) req opts).1
            (gw.ReleaseContainer log (tag ctx id) req opts).2,
            log ++ [gatewayapi.Call.ReleaseContainer (tag ctx id) req opts])) ∧
    (S.Supports apicaps.CapID.CapGatewayExec = none →
      gatewayClientForBuild.ExecProcess tag ⟨gw, id, some S⟩ ctx opts log
        = (Ret.returned (gw.ExecProcess log (tag ctx id) opts).1
            (gw.ExecProcess log (tag ctx id) opts).2,
            log ++ [gatewayapi.Call.ExecProcess (tag ctx id) opts])) := by
  refine ⟨?_, ?_, ?_, ?_, ?_, ?_, ?_⟩
  · intro req h
    simp [gatewayClientForBuild.ReadDir, h]
  · intro req h
    simp [gatewayClientForBuild.StatFile, h]
  · intro req h
    simp [gatewayClientForBuild.Evaluate, h]
  · intro req h
    simp [gatewayClientForBuild.Inputs, h]
  · intro req h
    simp [gatewayClientForBuild.NewContainer, h]
  · intro req h
    simp [gatewayClientForBuild.ReleaseContainer, h]
  · intro h
    simp [gatewayClientForBuild.ExecProcess, h]

/-- Witness of C4: `Evaluate` and `ReadDir` on a bridge whose capability set
supports everything; one call of the same operation is logged and the reply of
the backend comes back. -/
theorem gated_supported_forwards_one_call_witness :
    gatewayClientForBuild.Evaluate sampleTagger ⟨sampleBackend, "b1", some capsAll⟩
        ⟨[]⟩ (some ⟨"r1"⟩) [⟨7⟩] []
      = (Ret.returned (some ⟨"evaluated"⟩) none,
          [gatewayapi.Call.Evaluate ⟨[("buildid", "b1")]⟩ (some ⟨"r1"⟩) [⟨7⟩]]) ∧
    gatewayClientForBuild.ReadDir sampleTagger ⟨sampleBackend, "b1", some capsAll⟩
        ⟨[]⟩ (some ⟨"/etc"⟩) [⟨7⟩] []
      = (Ret.returned (some ⟨"dir"⟩) none,
          [gatewayapi.Call.ReadDir ⟨[("buildid", "b1")]⟩ (some ⟨"/etc"⟩) [⟨7⟩]]) :=
  have h := gated_supported_forwards_one_call sampleTagger sampleBackend "b1" capsAll
    ⟨[]⟩ [⟨7⟩] []
  ⟨h.2.2.1 (some ⟨"r1"⟩) rfl, h.1 (some ⟨"/etc"⟩) rfl⟩

/-- C5: on the bridge `Client.gatewayClientForBuild` returns (and so on the one
`Client.GatewayClientForBuild` returns), which has no capability set, every
gated operation forwards exactly one backend call, the call of the same
operation with the request of the caller on the tagged context (`Evaluate`
forwards evaluate, not stat-file), and returns the reply of the backend as it
is; no gate error and no panic occurs. -/
theorem gated_without_capability_set_forwards_one_call
    (tag : Tagger) (c : Client) (id : String)
    (ctx : Context) (opts : List CallOption) (log : List gatewayapi.Call) :
    (c.gatewayClientForBuild id).caps = none ∧
    c.GatewayClientForBuild id = c.gatewayClientForBuild id ∧
    (∀ req, gatewayClientForBuild.ReadDir tag (c.gatewayClientForBuild id) ctx req opts log
        = (Ret.returned (c.conn.ReadDir log (tag ctx id) req opts).1
            (c.conn.ReadDir log (tag ctx id) req opts).2,
            log ++ [gatewayapi.Call.ReadDir (tag ctx id) req opts])) ∧
    (∀ req, gatewayClientForBuild.StatFile tag (c.gatewayClientForBuild id) ctx req opts log
        = (Ret.returned (c.conn.StatFile log (tag ctx id) req opts).1
            (c.conn.StatFile log (tag ctx id) req opts).2,
            log ++ [gatewayapi.Call.StatFile (tag ctx id) req opts])) ∧
    (∀ req, gatewayClientForBuild.Evaluate tag (c.gatewayClientForBuild id) ctx req opts log
        = (Ret.returned (c.conn.Evaluate log (tag ctx id) req opts).1
            (c.conn.Evaluate log (tag ctx id) req opts).2,
            log ++ [gatewayapi.Call.Evaluate (tag ctx id) req opts])) ∧
    (∀ req, gatewayClientForBuild.Inputs tag (c.gatewayClientForBuild id) ctx req opts log
        = (Ret.returned (c.conn.Inputs log (tag ctx id) req opts).1
            (c.conn.Inputs log (tag ctx id) req opts).2,
            log ++ [gatewayapi.Call.Inputs (tag ctx id) req opts])) ∧
    (∀ req, gatewayClientForBuild.NewContainer tag (c.gatewayClientForBuild id) ctx req opts log
        = (Ret.returned (c.conn.NewContainer log (tag ctx id) req opts).1
            (c.conn.NewContainer log (tag ctx id) req opts).2,
            log ++ [gatewayapi.Call.NewContainer (tag ctx id) req opts])) ∧
    (∀ req, gatewayClientForBuild.ReleaseContainer tag (c.gatewayClientForBuild id) ctx req opts log
        = (Ret.returned (c.conn.ReleaseContainer log (tag ctx id) req opts).1
            (c.conn.ReleaseContainer log (tag ctx id) req opts).2,
            log ++ [gatewayapi.Call.ReleaseContainer (tag ctx id) req opts])) ∧
    (gatewayClientForBuild.ExecProcess tag (c.gatewayClientForBuild id) ctx opts log
        = (Ret.returned (c.conn.ExecProcess log (tag ctx id) opts).1
            (c.conn.ExecProcess log (tag ctx id) opts).2,
            log ++ [gatewayapi.Call.ExecProcess (tag ctx id) opts])) := by
  refine ⟨rfl, rfl, ?_, ?_, ?_, ?_, ?_, ?_, ?_⟩
  · intro req
    simp [gatewayClientForBuild.ReadDir, Client.gatewayClientForBuild]
  · intro req
    simp [gatewayClientForBuild.StatFile, Client.gatewayClientForBuild]
  · intro req
    simp [gatewayClientForBuild.Evaluate, Client.gatewayClientForBuild]
  · intro req
    simp [gatewayClientForBuild.Inputs, Client.gatewayClientForBuild]
  · intro req
    simp [gatewayClientForBuild.NewContainer, Client.gatewayClientForBuild]
  · intro req
    simp [gatewayClientForBuild.ReleaseContainer, Client.gatewayClientForBuild]
  · simp [gatewayClientForBuild.ExecProcess, Client.gatewayClientForBuild]

/-- C6: for each of the fourteen bridge operations, every bridge (with or
without a capability set) and every input, the log after the operation is the
log before it followed by calls that were all issued on the context
`AppendToOutgoingContext(ctx, g.buildID)`, and the backend is consulted on that
same context: the operation returns the reply the backend gives to the logged
call on the tagged context (for the six ungated operations and `Warn` always;
for a gated operation unless it returns the error of its capability check, or
panics on a nil request, with the log unchanged).  This covers the stat-file
call `Evaluate` substitutes, whose error is the one the backend gives on the
tagged context. -/
theorem every_forwarded_call_is_tagged
    (tag : Tagger) (g : gatewayClientForBuild)
    (ctx : Context) (opts : List CallOption) (log : List gatewayapi.Call) :
    (∀ req, ForwardedOn log (g.ResolveImageConfig tag ctx req opts log).2 (tag ctx g.buildID) ∧
      g.ResolveImageConfig tag ctx req opts log
        = (Ret.returned (g.gateway.ResolveImageConfig log (tag ctx g.buildID) req opts).1
              (g.gateway.ResolveImageConfig log (tag ctx g.buildID) req opts).2,
            log ++ [gatewayapi.Call.ResolveImageConfig (tag ctx g.buildID) req opts])) ∧
    (∀ req, ForwardedOn log (g.ResolveSourceMeta tag ctx req opts log).2 (tag ctx g.buildID) ∧
      g.ResolveSourceMeta tag ctx req opts log
        = (Ret.returned (g.gateway.ResolveSourceMeta log (tag ctx g.buildID) req opts).1
              (g.gateway.ResolveSourceMeta log (tag ctx g.buildID) req opts).2,
            log ++ [gatewayapi.Call.ResolveSourceMeta (tag ctx g.buildID) req opts])) ∧
    (∀ req, ForwardedOn log (g.Solve tag ctx req opts log).2 (tag ctx g.buildID) ∧
      g.Solve tag ctx req opts log
        = (Ret.returned (g.gateway.Solve log (tag ctx g.buildID) req opts).1
              (g.gateway.Solve log (tag ctx g.buildID) req opts).2,
            log ++ [gatewayapi.Call.Solve (tag ctx g.buildID) req opts])) ∧
    (∀ req, ForwardedOn log (g.ReadFile tag ctx req opts log).2 (tag ctx g.buildID) ∧
      g.ReadFile tag ctx req opts log
        = (Ret.returned (g.gateway.ReadFile log (tag ctx g.buildID) req opts).1
              (g.gateway.ReadFile log (tag ctx g.buildID) req opts).2,
            log ++ [gatewayapi.Call.ReadFile (tag ctx g.buildID) req opts])) ∧
    (∀ req, ForwardedOn log (g.ReadDir tag ctx req opts log).2 (tag ctx g.buildID) ∧
      (g.ReadDir tag ctx req opts log
          = (Ret.returned (g.gateway.ReadDir log (tag ctx g.buildID) req opts).1
              (g.gateway.ReadDir log (tag ctx g.buildID) req opts).2,
            log ++ [gatewayapi.Call.ReadDir (tag ctx g.buildID) req opts]) ∨
        ∃ S e, g.caps = some S ∧ S.Supports apicaps.CapID.CapReadDir = some e ∧
          g.ReadDir tag ctx req opts log = (Ret.returned none (some e), log))) ∧
    (∀ req, ForwardedOn log (g.StatFile tag ctx req opts log).2 (tag ctx g.buildID) ∧
      (g.StatFile tag ctx req opts log
          = (Ret.returned (g.gateway.StatFile log (tag ctx g.buildID) req opts).1
              (g.gateway.StatFile log (tag ctx g.buildID) req opts).2,
            log ++ [gatewayapi.Call.StatFile (tag ctx g.buildID) req opts]) ∨
        ∃ S e, g.caps = some S ∧ S.Supports apicaps.CapID.CapStatFile = some e ∧
          g.StatFile tag ctx req opts log = (Ret.returned none (some e), log))) ∧
    (∀ req, ForwardedOn log (g.Evaluate tag ctx req opts log).2 (tag ctx g.buildID) ∧
      (g.Evaluate tag ctx req opts log
          = (Ret.returned (g.gateway.Evaluate log (tag ctx g.buildID) req opts).1
              (g.gateway.Evaluate log (tag ctx g.buildID) req opts).2,
            log ++ [gatewayapi.Call.Evaluate (tag ctx g.buildID) req opts]) ∨
        (∃ r, req = some r ∧
          g.Evaluate tag ctx req opts log
            = (Ret.returned (some {})
                (g.gateway.StatFile log (tag ctx g.buildID) (some ⟨r.Ref, "."⟩) opts).2,
              log ++ [gatewayapi.Call.StatFile (tag ctx g.buildID) (some ⟨r.Ref, "."⟩)
                opts])) ∨
        (∃ S e, g.caps = some S ∧ S.Supports apicaps.CapID.CapGatewayEvaluate = some e ∧
          g.Evaluate tag ctx req opts log = (Ret.returned none (some e), log)) ∨
        (req = none ∧ g.Evaluate tag ctx req opts log = (Ret.panicked, log)))) ∧
    (∀ req, ForwardedOn log (g.Ping tag ctx req opts log).2 (tag ctx g.buildID) ∧
      g.Ping tag ctx req opts log
        = (Ret.returned (g.gateway.Ping log (tag ctx g.buildID) req opts).1
              (g.gateway.Ping log (tag ctx g.buildID) req opts).2,
            log ++ [gatewayapi.Call.Ping (tag ctx g.buildID) req opts])) ∧
    (∀ req, ForwardedOn log (g.Return tag ctx req opts log).2 (tag ctx g.buildID) ∧
      g.Return tag ctx req opts log
        = (Ret.returned (g.gateway.Return log (tag ctx g.buildID) req opts).1
              (g.gateway.Return log (tag ctx g.buildID) req opts).2,
            log ++ [gatewayapi.Call.Return (tag ctx g.buildID) req opts])) ∧
    (∀ req, ForwardedOn log (g.Inputs tag ctx req opts log).2 (tag ctx g.buildID) ∧
      (g.Inputs tag ctx req opts log
          = (Ret.returned (g.gateway.Inputs log (tag ctx g.buildID) req opts).1
              (g.gateway.Inputs log (tag ctx g.buildID) req opts).2,
            log ++ [gatewayapi.Call.Inputs (tag ctx g.buildID) req opts]) ∨
        ∃ S e, g.caps = some S ∧ S.Supports apicaps.CapID.CapFrontendInputs = some e ∧
          g.Inputs tag ctx req opts log = (Ret.returned none (some e), log))) ∧
    (∀ req, ForwardedOn log (g.NewContainer tag ctx req opts log).2 (tag ctx g.buildID) ∧
      (g.NewContainer tag ctx req opts log
          = (Ret.returned (g.gateway.NewContainer log (tag ctx g.buildID) req opts).1
              (g.gateway.NewContainer log (tag ctx g.buildID) req opts).2,
            log ++ [gatewayapi.Call.NewContainer (tag ctx g.buildID) req opts]) ∨
        ∃ S e, g.caps = some S ∧ S.Supports apicaps.CapID.CapGatewayExec = some e ∧
          g.NewContainer tag ctx req opts log = (Ret.returned none (some e), log))) ∧
    (∀ req, ForwardedOn log (g.ReleaseContainer tag ctx req opts log).2 (tag ctx g.buildID) ∧
      (g.ReleaseContainer tag ctx req opts log
          = (Ret.returned (g.gateway.ReleaseContainer log (tag ctx g.buildID) req opts).1
              (g.gateway.ReleaseContainer log (tag ctx g.buildID) req opts).2,
            log ++ [gatewayapi.Call.ReleaseContainer (tag ctx g.buildID) req opts]) ∨
        ∃ S e, g.caps = some S ∧ S.Supports apicaps.CapID.CapGatewayExec = some e ∧
          g.ReleaseContainer tag ctx req opts log = (Ret.returned none (some e), log))) ∧
    (ForwardedOn log (g.ExecProcess tag ctx opts log).2 (tag ctx g.buildID) ∧
      (g.ExecProcess tag ctx opts log
          = (Ret.returned (g.gateway.ExecProcess log (tag ctx g.buildID) opts).1
              (g.gateway.ExecProcess log (tag ctx g.buildID) opts).2,
            log ++ [gatewayapi.Call.ExecProcess (tag ctx g.buildID) opts]) ∨
        ∃ S e, g.caps = some S ∧ S.Supports apicaps.CapID.CapGatewayExec = some e ∧
          g.ExecProcess tag ctx opts log = (Ret.returned none (some e), log))) ∧
    (∀ req, ForwardedOn log (g.Warn tag ctx req opts log).2 (tag ctx g.buildID) ∧
      g.Warn tag ctx req opts log
        = (Ret.returned (g.gateway.Warn log (tag ctx g.buildID) req []).1
              (g.gateway.Warn log (tag ctx g.buildID) req []).2,
            log ++ [gatewayapi.Call.Warn (tag ctx g.buildID) req []])) := by
  refine ⟨?_, ?_, ?_, ?_, ?_, ?_, ?_, ?_, ?_, ?_, ?_, ?_, ?_, ?_⟩
  · intro req
    exact ⟨ForwardedOn.one _ _ _ rfl, rfl⟩
  · intro req
    exact ⟨ForwardedOn.one _ _ _ rfl, rfl⟩
  · intro req
    exact ⟨ForwardedOn.one _ _ _ rfl, rfl⟩
  · intro req
    exact ⟨ForwardedOn.one _ _ _ rfl, rfl⟩
  · intro req
    simp only [gatewayClientForBuild.ReadDir]
    repeat' split
    all_goals first
      | exact ⟨ForwardedOn.one _ _ _ rfl, Or.inl rfl⟩
      | exact ⟨ForwardedOn.same _ _, Or.inr ⟨_, _, by assumption, by assumption, rfl⟩⟩
  · intro req
    simp only [gatewayClientForBuild.StatFile]
    repeat' split
    all_goals first
      | exact ⟨ForwardedOn.one _ _ _ rfl, Or.inl rfl⟩
      | exact ⟨ForwardedOn.same _ _, Or.inr ⟨_, _, by assumption, by assumption, rfl⟩⟩
  · intro req
    simp only [gatewayClientForBuild.Evaluate]
    repeat' split
    all_goals first
      | exact ⟨ForwardedOn.one _ _ _ rfl, Or.inl rfl⟩
      | exact ⟨ForwardedOn.one _ _ _ rfl, Or.inr (Or.inl ⟨_, rfl, rfl⟩)⟩
      | exact ⟨ForwardedOn.same _ _, Or.inr (Or.inr (Or.inl ⟨_, _, by assumption, by assumption, rfl⟩))⟩
      | exact ⟨ForwardedOn.same _ _, Or.inr (Or.inr (Or.inr ⟨rfl, rfl⟩))⟩
  · intro req
    exact ⟨ForwardedOn.one _ _ _ rfl, rfl⟩
  · intro req
    exact ⟨ForwardedOn.one _ _ _ rfl, rfl⟩
  · intro req
    simp only [gatewayClientForBuild.Inputs]
    repeat' split
    all_goals first
      | exact ⟨ForwardedOn.one _ _ _ rfl, Or.inl rfl⟩
      | exact ⟨ForwardedOn.same _ _, Or.inr ⟨_, _, by assumption, by assumption, rfl⟩⟩
  · intro req
    simp only [gatewayClientForBuild.NewContainer]
    repeat' split
    all_goals first
      | exact ⟨ForwardedOn.one _ _ _ rfl, Or.inl rfl⟩
      | exact ⟨ForwardedOn.same _ _, Or.inr ⟨_, _, by assumption, by assumption, rfl⟩⟩
  · intro req
    simp only [gatewayClientForBuild.ReleaseContainer]
    repeat' split
    all_goals first
      | exact ⟨ForwardedOn.one _ _ _ rfl, Or.inl rfl⟩
      | exact ⟨ForwardedOn.same _ _, Or.inr ⟨_, _, by assumption, by assumption, rfl⟩⟩
  · simp only [gatewayClientForBuild.ExecProcess]
    repeat' split
    all_goals first
      | exact ⟨ForwardedOn.one _ _ _ rfl, Or.inl rfl⟩
      | exact ⟨ForwardedOn.same _ _, Or.inr ⟨_, _, by assumption, by assumption, rfl⟩⟩
  · intro req
    exact ⟨ForwardedOn.one _ _ _ rfl, rfl⟩

/-- C10 fails for `Warn`: the bridge calls the backend method with no call
options, whatever list the caller supplied.  In general the call `Warn` logs
has an empty option list; at the bridge without capability set, identifier
"b1" and the supplied options 1 and 2, the backend receives none of them. -/
theorem Warn_forwards_no_call_options :
    (∀ (tag : Tagger) (g : gatewayClientForBuild) (ctx : Context)
        (req : Option gatewayapi.WarnRequest) (opts : List CallOption)
        (log : List gatewayapi.Call),
      (g.Warn tag ctx req opts log).2
        = log ++ [gatewayapi.Call.Warn (tag ctx g.buildID) req []]) ∧
    ((gatewayClientForBuild.Warn sampleTagger ⟨sampleBackend, "b1", none⟩ ⟨[]⟩
        (some ⟨"deprecated"⟩) [⟨1⟩, ⟨2⟩] []).2.map gatewayapi.Call.opts = [[]]) ∧
    ((gatewayClientForBuild.Ping sampleTagger ⟨sampleBackend, "b1", none⟩ ⟨[]⟩
        (some ⟨"ping"⟩) [⟨1⟩, ⟨2⟩] []).2.map gatewayapi.Call.opts = [[⟨1⟩, ⟨2⟩]]) :=
  ⟨fun _ _ _ _ _ _ => rfl, rfl, rfl⟩

/-- The callback as a function of the state in which it calls `New` and `Run`. -/
theorem Client.Build.cb_eq (d : Collaborators) (c : Client) (ctx : Context)
    (product : String) (buildFunc : gateway.BuildFunc) (gworkers : List gateway.WorkerInfo)
    (ref : String) (s : session.Session) (opts : GoMap) (w : World) :
    Client.Build.cb d c ctx product buildFunc gworkers ref s opts w
      = (match d.New (Client.Build.cb.world c ctx product gworkers ref s opts w) ctx
            (Client.Build.cb.attrs w opts) s.ID product
            (c.gatewayClientForBuild ref) gworkers with
        | .error err => (some err, Client.Build.cb.world c ctx product gworkers ref s opts w)
        | .ok g =>
          match d.Run (Client.Build.cb.world c ctx product gworkers ref s opts w) g
              { gateway := c.conn, buildID := ref, caps := some g.BuildOptsCaps } ctx
              buildFunc with
          | some err => (errors.Wrap (some err) "failed to run Build function",
              Client.Build.cb.world c ctx product gworkers ref s opts w)
          | none => (none, Client.Build.cb.world c ctx product gworkers ref s opts w)) :=
  rfl

/-- The callback always ends in the state in which it called `New`. -/
theorem Client.Build.cb_world (d : Collaborators) (c : Client) (ctx : Context)
    (product : String) (buildFunc : gateway.BuildFunc) (gworkers : List gateway.WorkerInfo)
    (ref : String) (s : session.Session) (opts : GoMap) (w : World) :
    (Client.Build.cb d c ctx product buildFunc gworkers ref s opts w).2
      = Client.Build.cb.world c ctx product gworkers ref s opts w := by
  rw [Client.Build.cb_eq]
  split
  · rfl
  · split <;> rfl

/-- C8: provided the solve collaborator does not close the channel itself (it
leaves the count of closes as it is whenever its callback does), `Build` with a
non-nil `statusChan` executes `close(statusChan)` exactly once, whatever
`ListWorkers`, `New`, `Run` and `solve` return, so on the early return after a
failed `ListWorkers`, after a failed build routine and on success; with a nil
`statusChan` it executes no close. -/
theorem Build_closes_statusChan_exactly_once
    (d : Collaborators) (c : Client) (ctx : Context) (opt : SolveOpt) (product : String)
    (buildFunc : gateway.BuildFunc) (w : World)
    (hsolve : ∀ cb ctx' opt' statusChan w',
      (∀ ref s opts w'', (cb ref s opts w'').2.closes = w''.closes) →
      (d.solve cb ctx' opt' statusChan w').2.closes = w'.closes) :
    (∀ ch : StatusChan,
      (Client.Build d c ctx opt product buildFunc (some ch) w).2.closes = w.closes + 1) ∧
    (Client.Build d c ctx opt product buildFunc none w).2.closes = w.closes := by
  have hcb : ∀ product' gworkers ref s opts (w'' : World),
      (Client.Build.cb d c ctx product' buildFunc gworkers ref s opts w'').2.closes
        = w''.closes := by
    intro product' gworkers ref s opts w''
    rw [Client.Build.cb_world]
    rfl
  constructor
  · intro ch
    simp only [Client.Build]
    split
    · rfl
    · simp [hsolve _ _ _ _ _ (hcb _ _)]
  · simp only [Client.Build]
    split
    · rfl
    · simp [hsolve _ _ _ _ _ (hcb _ _)]

/-- The sample `solve` does not close the channel itself. -/
theorem sampleCollaborators_solve_closes :
    ∀ cb ctx' opt' statusChan w',
      (∀ ref s opts w'', (cb ref s opts w'').2.closes = w''.closes) →
      (sampleCollaborators.solve cb ctx' opt' statusChan w').2.closes = w'.closes := by
  intro cb ctx' opt' statusChan w' h
  simp [sampleCollaborators, h]

/-- Witness of C8: one close when `ListWorkers` fails (context with the key
"offline"), when the build routine fails (routine 1) and on success
(routine 0); none with a nil channel. -/
theorem Build_closes_statusChan_exactly_once_witness :
    (Client.Build sampleCollaborators ⟨sampleBackend⟩ ⟨[("offline", "1")]⟩
        ⟨"dockerfile.v0", none, ""⟩ "" ⟨0⟩ (some ⟨1⟩) sampleWorld).2.closes = 0 + 1 ∧
    (Client.Build sampleCollaborators ⟨sampleBackend⟩ ⟨[]⟩
        ⟨"dockerfile.v0", none, ""⟩ "" ⟨1⟩ (some ⟨1⟩) sampleWorld).2.closes = 0 + 1 ∧
    (Client.Build sampleCollaborators ⟨sampleBackend⟩ ⟨[]⟩
        ⟨"dockerfile.v0", none, ""⟩ "" ⟨0⟩ (some ⟨1⟩) sampleWorld).2.closes = 0 + 1 ∧
    (Client.Build sampleCollaborators ⟨sampleBackend⟩ ⟨[]⟩
        ⟨"dockerfile.v0", none, ""⟩ "" ⟨0⟩ none sampleWorld).2.closes = 0 ∧
    (Client.Build sampleCollaborators ⟨sampleBackend⟩ ⟨[("offline", "1")]⟩
        ⟨"dockerfile.v0", none, ""⟩ "" ⟨0⟩ (some ⟨1⟩) sampleWorld).1
      = (none, some ⟨"listing workers for Build: unavailable"⟩) ∧
    (Client.Build sampleCollaborators ⟨sampleBackend⟩ ⟨[]⟩
        ⟨"dockerfile.v0", none, ""⟩ "" ⟨1⟩ (some ⟨1⟩) sampleWorld).1
      = (none, some ⟨"failed to run Build function: boom"⟩) ∧
    (Client.Build sampleCollaborators ⟨sampleBackend⟩ ⟨[]⟩
        ⟨"dockerfile.v0", none, ""⟩ "" ⟨0⟩ (some ⟨1⟩) sampleWorld).1
      = (some ⟨"done"⟩, none) :=
  ⟨(Build_closes_statusChan_exactly_once sampleCollaborators ⟨sampleBackend⟩
      ⟨[("offline", "1")]⟩ ⟨"dockerfile.v0", none, ""⟩ "" ⟨0⟩ sampleWorld
      sampleCollaborators_solve_closes).1 ⟨1⟩,
   (Build_closes_statusChan_exactly_once sampleCollaborators ⟨sampleBackend⟩
      ⟨[]⟩ ⟨"dockerfile.v0", none, ""⟩ "" ⟨1⟩ sampleWorld
      sampleCollaborators_solve_closes).1 ⟨1⟩,
   (Build_closes_statusChan_exactly_once sampleCollaborators ⟨sampleBackend⟩
      ⟨[]⟩ ⟨"dockerfile.v0", none, ""⟩ "" ⟨0⟩ sampleWorld
      sampleCollaborators_solve_closes).1 ⟨1⟩,
   (Build_closes_statusChan_exactly_once sampleCollaborators ⟨sampleBackend⟩
      ⟨[]⟩ ⟨"dockerfile.v0", none, ""⟩ "" ⟨0⟩ sampleWorld
      sampleCollaborators_solve_closes).2,
   by decide, by decide, by decide⟩

/-- C9: in a run of the callback in which `grpcclient.New` succeeds with the
client `g`: if `g.Run` on the build routine returns an error `e`, the callback
returns a non-nil error whose message contains "failed to run Build function"
and the message of `e`; if it returns no error, the callback returns no error.
And when `ListWorkers` succeeds, what `Build` returns is what `solve`, given
that callback, returns. -/
theorem cb_wraps_build_function_error
    (d : Collaborators) (c : Client) (ctx : Context) (product : String)
    (buildFunc : gateway.BuildFunc) (gworkers : List gateway.WorkerInfo)
    (ref : String) (s : session.Session) (opts : GoMap) (w : World)
    (g : grpcclient.GrpcClient)
    (hNew : d.New (Client.Build.cb.world c ctx product gworkers ref s opts w) ctx
        (Client.Build.cb.attrs w opts) s.ID product (c.gatewayClientForBuild ref) gworkers
      = .ok g) :
    (∀ e : GoError,
      d.Run (Client.Build.cb.world c ctx product gworkers ref s opts w) g
          { gateway := c.conn, buildID := ref, caps := some g.BuildOptsCaps } ctx buildFunc
        = some e →
      ∃ e' : GoError,
        (Client.Build.cb d c ctx product buildFunc gworkers ref s opts w).1 = some e' ∧
        e'.Contains "failed to run Build function" ∧ e'.Contains e.msg) ∧
    (d.Run (Client.Build.cb.world c ctx product gworkers ref s opts w) g
          { gateway := c.conn, buildID := ref, caps := some g.BuildOptsCaps } ctx buildFunc
        = none →
      (Client.Build.cb d c ctx product buildFunc gworkers ref s opts w).1 = none) ∧
    (∀ (opt : SolveOpt) (product0 : String) (statusChan : Option StatusChan) (w0 : World),
      (d.ListWorkers { w0 with feOpts := opt.FrontendAttrs } ctx).2 = none →
      (Client.Build d c ctx opt product0 buildFunc statusChan w0).1
        = (d.solve
            (Client.Build.cb d c ctx (if product0 = "" then d.ExportedProduct else product0)
              buildFunc
              ((d.ListWorkers { w0 with feOpts := opt.FrontendAttrs } ctx).1.map
                (fun wi => { ID := wi.ID, Labels := wi.Labels, Platforms := wi.Platforms })))
            ctx { opt with Frontend := "" } statusChan
            { w0 with feOpts := opt.FrontendAttrs }).1) := by
  refine ⟨?_, ?_, ?_⟩
  · intro e hRun
    refine ⟨{ msg := "failed to run Build function" ++ ": " ++ e.msg }, ?_, ?_, ?_⟩
    · rw [Client.Build.cb_eq, hNew]
      simp only [hRun, errors.Wrap]
    · show ("failed to run Build function" : String).data
        <:+: ("failed to run Build function" ++ ": " ++ e.msg : String).data
      rw [String.data_append, String.data_append, List.append_assoc]
      exact (List.prefix_append _ _).isInfix
    · show e.msg.data <:+: ("failed to run Build function" ++ ": " ++ e.msg : String).data
      rw [String.data_append]
      exact (List.suffix_append _ _).isInfix
  · intro hRun
    rw [Client.Build.cb_eq, hNew]
    simp only [hRun]
  · intro opt product0 statusChan w0 hLW
    simp only [Client.Build]
    split
    · rename_i err herr
      rw [hLW] at herr
      cases herr
    · rfl

/-- Witness of C9: the build routine 1 fails with "boom" and the callback
returns the wrapped error; the build routine 0 succeeds and the callback
returns no error; `Build` returns the wrapped error the sample `solve` passes
on. -/
theorem cb_wraps_build_function_error_witness :
    (∃ e' : GoError,
      (Client.Build.cb sampleCollaborators ⟨sampleBackend⟩ ⟨[]⟩ "buildkit" ⟨1⟩ [] "ref1"
          ⟨"sess1"⟩ (some sampleSessionOpts) sampleWorld).1 = some e' ∧
      e'.Contains "failed to run Build function" ∧ e'.Contains "boom") ∧
    (Client.Build.cb sampleCollaborators ⟨sampleBackend⟩ ⟨[]⟩ "buildkit" ⟨0⟩ [] "ref1"
        ⟨"sess1"⟩ (some sampleSessionOpts) sampleWorld).1 = none ∧
    (Client.Build sampleCollaborators ⟨sampleBackend⟩ ⟨[]⟩ ⟨"dockerfile.v0", none, ""⟩ ""
        ⟨1⟩ (some ⟨1⟩) sampleWorld).1
      = (none, some ⟨"failed to run Build function: boom"⟩) :=
  ⟨(cb_wraps_build_function_error sampleCollaborators ⟨sampleBackend⟩ ⟨[]⟩ "buildkit" ⟨1⟩ []
      "ref1" ⟨"sess1"⟩ (some sampleSessionOpts) sampleWorld ⟨capsStatOnly, 1⟩ rfl).1
      ⟨"boom"⟩ rfl,
   (cb_wraps_build_function_error sampleCollaborators ⟨sampleBackend⟩ ⟨[]⟩ "buildkit" ⟨0⟩ []
      "ref1" ⟨"sess1"⟩ (some sampleSessionOpts) sampleWorld ⟨capsStatOnly, 1⟩ rfl).2.1 rfl,
   ((cb_wraps_build_function_error sampleCollaborators ⟨sampleBackend⟩ ⟨[]⟩ "buildkit" ⟨1⟩ []
      "ref1" ⟨"sess1"⟩ (some sampleSessionOpts) sampleWorld ⟨capsStatOnly, 1⟩ rfl).2.2
      ⟨"dockerfile.v0", none, ""⟩ "" (some ⟨1⟩) sampleWorld rfl).trans (by decide)⟩

end Buildkit
